import Mathlib

/-!
Verification of the DCGAN training script `dcgan.py`.

The script is a single training loop over an external autodiff framework
(torch).  We shallowly embed the loop: pure numeric computations become Lean
functions over `ℚ`; the framework's opaque collaborators (network forwards,
BCE criterion, the gradients produced by `backward()`, the Adam update) are
the fields of a `Torch` record that every theorem quantifies over; the
mutable training state (parameter sets, gradient buffers, train/eval modes)
is threaded explicitly.  Each definition cites the line of `dcgan.py` it
embeds.
-/

/-- Train/eval mode of a torch module (`.train()` / `.eval()`). -/
inductive Mode where
  | train
  | eval
deriving DecidableEq

/-- Python `str.find(pat)` on `s`, as the index of the first occurrence of
`pat` in `s` (`none` models the `-1` returned when `pat` does not occur).
`dcgan.py` only ever tests `find(...) != -1`, i.e. `Option.isSome`. -/
def findSub (pat : List Char) : List Char → Option Nat
  | [] => if pat.isPrefixOf ([] : List Char) then some 0 else none
  | c :: rest =>
    if pat.isPrefixOf (c :: rest) then some 0
    else (findSub pat rest).map (fun n => n + 1)

/-- How a parameter tensor of a layer has been initialised: left at the
framework default, redrawn from `normal(mean, std)` by `nn.init.normal_`,
or set to a constant by `nn.init.constant_`. -/
inductive ParamInit where
  | frameworkDefault
  | normal (mean std : ℚ)
  | const (c : ℚ)
deriving DecidableEq

/-- A sub-layer (torch module) as seen by `weight_init`: its class name and
the initialisation state of its weight and bias tensors. -/
structure Layer where
  className : String
  weight : ParamInit
  bias : ParamInit
deriving DecidableEq

/-- Lines 20-26 of `dcgan.py`: `weight_init(m)`.  `classname.find('Conv') != -1`
selects the Conv branch; `elif classname.find('BatchNorm') != -1` selects the
BatchNorm branch only otherwise. -/
def weight_init (m : Layer) : Layer :=
  if (findSub ("Conv".data) m.className.data).isSome then
    { m with weight := ParamInit.normal 0 0.02 }
  else if (findSub ("BatchNorm".data) m.className.data).isSome then
    { m with weight := ParamInit.normal 1 0.02, bias := ParamInit.const 0 }
  else m

/-- Lines 93 and 112 of `dcgan.py`: the instance-noise standard deviation
`0.1 * (args.num_epochs - epoch) / args.num_epochs`. -/
def sigma (num_epochs epoch : ℕ) : ℚ :=
  0.1 * ((num_epochs : ℚ) - (epoch : ℚ)) / (num_epochs : ℚ)

/-- Line 61 of `dcgan.py`: `lambda_interp = i / 63`. -/
def lambda_interp (i : ℕ) : ℚ := (i : ℚ) / 63

/-- Line 62 of `dcgan.py`:
`z_interp = z_1 * (1 - lambda_interp) + lambda_interp * z_2`
(per coordinate of the latent tensors). -/
def z_interp (z_1 z_2 : ℚ) (i : ℕ) : ℚ :=
  z_1 * (1 - lambda_interp i) + lambda_interp i * z_2

/-- Lines 57-64 of `dcgan.py`: the 64-entry interpolation path obtained by
appending `z_interp` for `i in range(64)` and concatenating. -/
def fixed_interpolate (z_1 z_2 : ℚ) : List ℚ :=
  (List.range 64).map (z_interp z_1 z_2)

/-- A tensor downstream of the generator in the autodiff graph: its numeric
contents, the latent batch it was generated from, the generator's mode at the
time of the forward (the graph that `backward()` will traverse), and whether
gradients still flow to generator parameters through it (`requires_grad`
through `netG`; cleared by `.detach()`). -/
structure FakeImages (V : Type) where
  val : V
  z : V
  genMode : Mode
  tracksG : Bool
deriving DecidableEq

/-- `fake_images.detach()`: same numeric contents, gradient tracking into the
generator severed. -/
def FakeImages.detach (f : FakeImages V) : FakeImages V := { f with tracksG := false }

/-- Elementwise `+ n` on a generator-downstream tensor (the added noise is a
fresh leaf, so value changes, graph provenance does not). -/
def FakeImages.addNoise [Add V] (f : FakeImages V) (n : V) : FakeImages V :=
  { f with val := f.val + n }

/-- Line 113 of `dcgan.py`: the discriminator input of the D-fake pass,
`fake_images.detach() + noise_2`. -/
def dFakeInput [Add V] (fake_images : FakeImages V) (noise_2 : V) : FakeImages V :=
  fake_images.detach.addNoise noise_2

/-- Line 138 of `dcgan.py`: the discriminator input of the G-step,
`fake_images + noise_2` (the same tensors, not detached). -/
def gStepInput [Add V] (fake_images : FakeImages V) (noise_2 : V) : FakeImages V :=
  fake_images.addNoise noise_2

/-- The opaque external collaborators of the loop (the torch framework and the
two networks of `networks.py`).  `D`/`G` are the discriminator's and
generator's parameter collections, `V` the image/latent tensor values.
The `dGrad`/`gGrad` fields are the gradients that a `backward()` call on
`criterion(netD(x), label)` accumulates into the respective parameter
buffers; `adamStepD`/`adamStepG` are the `optimizer.step()` updates. -/
structure Torch (D G V : Type) where
  dForward : Mode → D → V → V
  gForward : Mode → G → V → V
  bce : V → ℚ → ℚ
  mean : V → ℚ
  dGrad : Mode → D → V → ℚ → V
  gGrad : Mode → Mode → D → G → V → V → ℚ → V
  adamStepD : D → V → D
  adamStepG : G → V → G

/-- The mutable state the loop threads: the two parameter sets, the two
gradient buffers (`.grad` of the parameters, written by `zero_grad()`,
`backward()` and read by `step()`), and the two train/eval mode flags. -/
structure TrainState (D G V : Type) where
  paramsD : D
  paramsG : G
  gradD : V
  gradG : V
  modeD : Mode
  modeG : Mode
deriving DecidableEq

/-- Observables of the D-real half-step. -/
structure DRealOut (D G V : Type) where
  s : TrainState D G V
  errD_real : ℚ
  D_x : ℚ

/-- Lines 88-101 of `dcgan.py`: `netD.train()`, `netD.zero_grad()`, forward
the real batch plus `noise_1` (label filled with `real_labels = 1`, line 92),
compute `errD_real`, `errD_real.backward()`, record `D_x`. -/
def dRealPhase [AddCommMonoid V] (T : Torch D G V) (real_images noise_1 : V)
    (s : TrainState D G V) : DRealOut D G V :=
  let s := { s with modeD := Mode.train }
  let s := { s with gradD := 0 }
  let output := T.dForward s.modeD s.paramsD (real_images + noise_1)
  let errD_real := T.bce output 1
  let s := { s with gradD := s.gradD + T.dGrad s.modeD s.paramsD (real_images + noise_1) 1 }
  { s := s, errD_real := errD_real, D_x := T.mean output }

/-- Observables of the D-fake half-step (before the optimizer step). -/
structure DFakeOut (D G V : Type) where
  s : TrainState D G V
  fake_images : FakeImages V
  errD_fake : ℚ
  D_G_x_1 : ℚ

/-- Lines 105-121 of `dcgan.py`: `fake_images = netG(noise)` (line 107, in the
generator's current mode), label refilled with `fake_labels = 0` (line 108),
forward `fake_images.detach() + noise_2` through `netD` (line 113), compute
`errD_fake`, `errD_fake.backward()` (line 118) — which accumulates onto the
same discriminator gradient buffer, and into the generator's buffer only if
the input still tracked generator gradients (it does not: detached) —
and record `D_G_x_1`. -/
def dFakeBackward [AddCommMonoid V] (T : Torch D G V) (noise noise_2 : V)
    (s : TrainState D G V) : DFakeOut D G V :=
  let fake_images : FakeImages V :=
    { val := T.gForward s.modeG s.paramsG noise, z := noise,
      genMode := s.modeG, tracksG := true }
  let input := dFakeInput fake_images noise_2
  let output := T.dForward s.modeD s.paramsD input.val
  let errD_fake := T.bce output 0
  let s := { s with
    gradD := s.gradD + T.dGrad s.modeD s.paramsD input.val 0,
    gradG := if input.tracksG then
        s.gradG + T.gGrad input.genMode s.modeD s.paramsD s.paramsG input.z noise_2 0
      else s.gradG }
  { s := s, fake_images := fake_images, errD_fake := errD_fake, D_G_x_1 := T.mean output }

/-- Line 124 of `dcgan.py`: `netD_optimizer.step()` — one Adam update of the
discriminator parameters from whatever the gradient buffer now holds. -/
def netDOptimizerStep (T : Torch D G V) (s : TrainState D G V) : TrainState D G V :=
  { s with paramsD := T.adamStepD s.paramsD s.gradD }

/-- Observables of the G-step. -/
structure GOut (D G V : Type) where
  s : TrainState D G V
  errG : ℚ
  D_G_x_2 : ℚ

/-- Lines 133-148 of `dcgan.py`: `netG.train()`, `netG.zero_grad()`, label
refilled with `real_labels = 1` (line 137), forward `fake_images + noise_2`
through `netD` (line 138, same values, not detached, discriminator already
stepped), compute `errG`, `errG.backward()` (line 143) — which accumulates
into the generator's buffer through the graph recorded at generation time
and, since the discriminator participates in the forward, also into the
discriminator's gradient buffer — record `D_G_x_2`, then
`netG_optimizer.step()` (line 148). -/
def gPhase [AddCommMonoid V] (T : Torch D G V) (fake_images : FakeImages V)
    (noise_2 : V) (s : TrainState D G V) : GOut D G V :=
  let s := { s with modeG := Mode.train }
  let s := { s with gradG := 0 }
  let input := gStepInput fake_images noise_2
  let output := T.dForward s.modeD s.paramsD input.val
  let errG := T.bce output 1
  let s := { s with
    gradG := if input.tracksG then
        s.gradG + T.gGrad input.genMode s.modeD s.paramsD s.paramsG input.z noise_2 1
      else s.gradG,
    gradD := s.gradD + T.dGrad s.modeD s.paramsD input.val 1 }
  let s := { s with paramsG := T.adamStepG s.paramsG s.gradG }
  { s := s, errG := errG, D_G_x_2 := T.mean output }

/-- One line of the diagnostics print (lines 152-153 of `dcgan.py`). -/
structure LogLine where
  epoch : ℕ
  num_epochs : ℕ
  i : ℕ
  num_batches : ℕ
  lossD : ℚ
  lossG : ℚ
  dx : ℚ
  dgz1 : ℚ
  dgz2 : ℚ
deriving DecidableEq

/-- The two output directories of the visualization sampler. -/
inductive Artifact where
  | out
  | interpolate
deriving DecidableEq

/-- Python `str.zfill(w)` for a string of digits: left-pad with `'0'`. -/
def zfill (w : ℕ) (s : String) : String :=
  if w ≤ s.length then s
  else String.mk (List.replicate (w - s.length) '0') ++ s

/-- Line 164/168 of `dcgan.py`: `str(iters).zfill(7) + '.png'`. -/
def pngName (iters : ℕ) : String := zfill 7 (toString iters) ++ ".png"

/-- Lines 156-169 of `dcgan.py`: every iteration with `iters % 1000 == 0`,
switch the generator to evaluation mode (`netG.eval()`, line 161) and write
one image grid per artifact type; otherwise do nothing. -/
def visPhase (iters : ℕ) (s : TrainState D G V) :
    TrainState D G V × List (Artifact × String) :=
  if iters % 1000 = 0 then
    ({ s with modeG := Mode.eval },
      [(Artifact.out, pngName iters), (Artifact.interpolate, pngName iters)])
  else (s, [])

/-- Everything one loop-body execution produces: the final state, the program
variables of lines 88-153, the diagnostics line (if printed) and the files
written (if any). -/
structure IterOut (D G V : Type) where
  state : TrainState D G V
  fake_images : FakeImages V
  errD_real : ℚ
  errD_fake : ℚ
  errD : ℚ
  errG : ℚ
  D_x : ℚ
  D_G_x_1 : ℚ
  D_G_x_2 : ℚ
  log : Option LogLine
  saves : List (Artifact × String)

/-- Lines 88-171 of `dcgan.py`: one execution of the inner loop body, in
source order: D-real backward, D-fake backward (`errD = errD_real + errD_fake`,
line 119), discriminator optimizer step (line 124), G-step (lines 133-148),
diagnostics every 50 global iterations (lines 151-153), visualization every
1000 global iterations (lines 156-169). -/
def iteration [AddCommMonoid V] (T : Torch D G V)
    (num_epochs epoch num_batches i iters : ℕ)
    (real_images noise_1 noise noise_2 : V)
    (s : TrainState D G V) : IterOut D G V :=
  let r := dRealPhase T real_images noise_1 s
  let f := dFakeBackward T noise noise_2 r.s
  let errD := r.errD_real + f.errD_fake
  let s2 := netDOptimizerStep T f.s
  let g := gPhase T f.fake_images noise_2 s2
  let log : Option LogLine :=
    if iters % 50 = 0 then
      some { epoch := epoch, num_epochs := num_epochs, i := i,
             num_batches := num_batches, lossD := errD, lossG := g.errG,
             dx := r.D_x, dgz1 := f.D_G_x_1, dgz2 := g.D_G_x_2 }
    else none
  let v := visPhase iters g.s
  { state := v.1, fake_images := f.fake_images,
    errD_real := r.errD_real, errD_fake := f.errD_fake, errD := errD,
    errG := g.errG, D_x := r.D_x, D_G_x_1 := f.D_G_x_1, D_G_x_2 := g.D_G_x_2,
    log := log, saves := v.2 }

/-- Line 204 of `dcgan.py`: `DataLoader(..., drop_last=True)` yields
`datasetSize / batch_size` (floor) batches per epoch. -/
def batchesPerEpoch (datasetSize batch_size : ℕ) : ℕ := datasetSize / batch_size

/-- Lines 68-171 of `dcgan.py`: `iters` starts at 0 and increments once per
inner-loop body, so a full run executes iterations `0, 1, ..., total - 1`
with `total = num_epochs * batchesPerEpoch`. -/
def totalIters (num_epochs nBatches : ℕ) : ℕ := num_epochs * nBatches

/-- The global iteration counters at which the run visualizes (line 156:
`iters % 1000 == 0`); one file per artifact type is written at each. -/
def visIters (total : ℕ) : List ℕ :=
  (List.range total).filter (fun it => it % 1000 = 0)

/-- Number of visualization files a run writes per artifact type. -/
def filesPerArtifact (total : ℕ) : ℕ := (visIters total).length

/-- A concrete instantiation of the external collaborators over `ℚ`, used to
exercise the theorems on closed inputs. -/
def torchQ : Torch ℚ ℚ ℚ where
  dForward := fun _ p x => p * x
  gForward := fun _ p z => p + z
  bce := fun o l => (o - l) * (o - l)
  mean := fun o => o
  dGrad := fun _ p x l => p + x + l
  gGrad := fun _ _ pD pG z n2 l => pD + pG + z + n2 + l
  adamStepD := fun p g => p - g
  adamStepG := fun p g => p - g

/-- A concrete training state over `ℚ`. -/
def st0 : TrainState ℚ ℚ ℚ :=
  { paramsD := 1, paramsG := 2, gradD := 3, gradG := 4,
    modeD := Mode.train, modeG := Mode.train }

/-- A layer whose class name contains both `Conv` and `BatchNorm`, with all
parameters still at their framework defaults. -/
def convBatchNormLayer : Layer :=
  { className := "ConvBatchNorm2d", weight := ParamInit.frameworkDefault,
    bias := ParamInit.frameworkDefault }

/-- A plain convolutional layer at framework defaults. -/
def convLayer : Layer :=
  { className := "Conv2d", weight := ParamInit.frameworkDefault,
    bias := ParamInit.frameworkDefault }

/-- A plain batch-normalization layer at framework defaults. -/
def bnLayer : Layer :=
  { className := "BatchNorm2d", weight := ParamInit.frameworkDefault,
    bias := ParamInit.frameworkDefault }

/-- A layer of neither kind, at framework defaults. -/
def linearLayer : Layer :=
  { className := "Linear", weight := ParamInit.frameworkDefault,
    bias := ParamInit.frameworkDefault }

theorem visPhase_fst_paramsD (iters : ℕ) (s : TrainState D G V) :
    (visPhase iters s).1.paramsD = s.paramsD := by
  unfold visPhase; split <;> rfl

theorem visPhase_fst_modeG (iters : ℕ) (s : TrainState D G V) :
    (visPhase iters s).1.modeG = if iters % 1000 = 0 then Mode.eval else s.modeG := by
  unfold visPhase; split <;> rfl

/-- C1: in every training iteration the discriminator's gradient buffer is
zeroed once before the D-real pass, the D-real and D-fake losses are both
backpropagated onto that same buffer, and the single discriminator optimizer
step afterwards uses the sum of the two gradients: the buffer at step time is
`gReal + gFake` (independently of whatever the buffer held before the
iteration), and the discriminator parameters after the iteration are exactly
one Adam step from the pre-iteration parameters with that summed gradient —
a single combined step over the accumulated gradients. -/
theorem dStep_uses_sum_of_both_gradients
    {D G V : Type} [AddCommMonoid V] (T : Torch D G V)
    (num_epochs epoch num_batches i iters : ℕ)
    (real_images noise_1 noise noise_2 : V) (s : TrainState D G V) :
    (dFakeBackward T noise noise_2 (dRealPhase T real_images noise_1 s).s).s.gradD
        = T.dGrad Mode.train s.paramsD (real_images + noise_1) 1
          + T.dGrad Mode.train s.paramsD
              (T.gForward s.modeG s.paramsG noise + noise_2) 0
    ∧ (netDOptimizerStep T
          (dFakeBackward T noise noise_2 (dRealPhase T real_images noise_1 s).s).s).paramsD
        = T.adamStepD s.paramsD
            (T.dGrad Mode.train s.paramsD (real_images + noise_1) 1
              + T.dGrad Mode.train s.paramsD
                  (T.gForward s.modeG s.paramsG noise + noise_2) 0)
    ∧ (iteration T num_epochs epoch num_batches i iters
          real_images noise_1 noise noise_2 s).state.paramsD
        = T.adamStepD s.paramsD
            (T.dGrad Mode.train s.paramsD (real_images + noise_1) 1
              + T.dGrad Mode.train s.paramsD
                  (T.gForward s.modeG s.paramsG noise + noise_2) 0) := by
  refine ⟨?_, ?_, ?_⟩ <;>
    simp [iteration, dRealPhase, dFakeBackward, netDOptimizerStep, gPhase,
      visPhase_fst_paramsD, dFakeInput, gStepInput, FakeImages.detach,
      FakeImages.addNoise]

/-- C2: the G-step never modifies any discriminator parameter — `gPhase`
leaves `paramsD` untouched for every incoming state, and the discriminator
parameters at the end of a full iteration are exactly the ones produced by the
discriminator optimizer step, even though `errG.backward()` does compute and
accumulate a gradient through the discriminator into its gradient buffer. -/
theorem gStep_never_modifies_discriminator_params
    {D G V : Type} [AddCommMonoid V] (T : Torch D G V)
    (fake : FakeImages V) (noise_2 : V) (s : TrainState D G V)
    (num_epochs epoch num_batches i iters : ℕ)
    (real_images noise_1 noise : V) (s0 : TrainState D G V) :
    (gPhase T fake noise_2 s).s.paramsD = s.paramsD
    ∧ (gPhase T fake noise_2 s).s.gradD
        = s.gradD + T.dGrad s.modeD s.paramsD (fake.val + noise_2) 1
    ∧ (iteration T num_epochs epoch num_batches i iters
          real_images noise_1 noise noise_2 s0).state.paramsD
        = (netDOptimizerStep T
            (dFakeBackward T noise noise_2 (dRealPhase T real_images noise_1 s0).s).s).paramsD := by
  refine ⟨rfl, ?_, ?_⟩
  · simp [gPhase, gStepInput, FakeImages.addNoise]
  · simp [iteration, gPhase, visPhase_fst_paramsD]

/-- C3: within one iteration the fake images are generated once and the noise
tensor `noise_2` sampled for the D-fake pass is reused for the G-step: the
discriminator's D-fake input (`fake_images.detach() + noise_2`) and its G-step
input (`fake_images + noise_2`) carry identical numeric values and differ only
in gradient tracking — the D-fake input tracks no generator gradients while
the G-step input keeps the fake images' tracking, which for the images the
iteration generates is on. -/
theorem dFake_and_gStep_inputs_identical_values
    {D G V : Type} [AddCommMonoid V] (T : Torch D G V)
    (fake : FakeImages V) (noise_2 : V)
    (num_epochs epoch num_batches i iters : ℕ)
    (real_images noise_1 noise : V) (s : TrainState D G V) :
    (dFakeInput fake noise_2).val = (gStepInput fake noise_2).val
    ∧ (dFakeInput fake noise_2).tracksG = false
    ∧ (gStepInput fake noise_2).tracksG = fake.tracksG
    ∧ (iteration T num_epochs epoch num_batches i iters
          real_images noise_1 noise noise_2 s).fake_images.tracksG = true
    ∧ (iteration T num_epochs epoch num_batches i iters
          real_images noise_1 noise noise_2 s).fake_images.val
        = T.gForward s.modeG s.paramsG noise := by
  exact ⟨rfl, rfl, rfl, rfl, rfl⟩

/-- C4: the per-epoch noise standard deviation
`sigma E e = 0.1 * (E - e) / E` is non-negative on `[0, E]`, strictly
decreasing in the epoch, and equals 0 exactly at `e = E`. -/
theorem sigma_schedule_properties (E : ℕ) (hE : 0 < E) :
    (∀ e, e ≤ E → 0 ≤ sigma E e)
    ∧ (∀ j k, j < k → k ≤ E → sigma E k < sigma E j)
    ∧ (∀ e, e ≤ E → (sigma E e = 0 ↔ e = E)) := by
  have hEQ : (0 : ℚ) < (E : ℚ) := by exact_mod_cast hE
  refine ⟨?_, ?_, ?_⟩
  · intro e he
    have heQ : (e : ℚ) ≤ (E : ℚ) := by exact_mod_cast he
    unfold sigma
    apply div_nonneg _ hEQ.le
    have h1 : (0 : ℚ) ≤ (E : ℚ) - (e : ℚ) := by linarith
    exact mul_nonneg (by norm_num) h1
  · intro j k hjk _
    have hjkQ : (j : ℚ) < (k : ℚ) := by exact_mod_cast hjk
    unfold sigma
    rw [div_lt_div_iff_of_pos_right hEQ]
    have h01 : (0 : ℚ) < 0.1 := by norm_num
    apply mul_lt_mul_of_pos_left _ h01
    linarith
  · intro e _
    unfold sigma
    rw [div_eq_zero_iff]
    constructor
    · rintro (h | h)
      · rcases mul_eq_zero.mp h with h1 | h2
        · norm_num at h1
        · have heQ : (e : ℚ) = (E : ℚ) := by linarith
          exact_mod_cast heQ
      · exact absurd h hEQ.ne'
    · intro h
      subst h
      left
      ring

/-- Witness for C4 at a run of 100 epochs. -/
theorem sigma_schedule_witness :
    0 < 100 ∧ 0 ≤ sigma 100 5 ∧ sigma 100 7 < sigma 100 5 ∧ sigma 100 100 = 0 :=
  ⟨by decide,
   (sigma_schedule_properties 100 (by decide)).1 5 (by decide),
   (sigma_schedule_properties 100 (by decide)).2.1 5 7 (by decide) (by decide),
   ((sigma_schedule_properties 100 (by decide)).2.2 100 (le_refl 100)).mpr rfl⟩

/-- C10: on the epochs the loop actually executes (`epoch < num_epochs`,
line 71) the instance-noise standard deviation is strictly positive, with
minimum `0.1 / num_epochs` attained at the final executed epoch
`num_epochs - 1`; it is never zero during a run. -/
theorem sigma_positive_on_executed_epochs (E : ℕ) (hE : 0 < E) :
    (∀ e, e < E → 0 < sigma E e)
    ∧ (∀ e, e < E → sigma E (E - 1) ≤ sigma E e)
    ∧ sigma E (E - 1) = 0.1 / (E : ℚ)
    ∧ (∀ e, e < E → sigma E e ≠ 0) := by
  have hEQ : (0 : ℚ) < (E : ℚ) := by exact_mod_cast hE
  have hcast : ((E - 1 : ℕ) : ℚ) = (E : ℚ) - 1 := by
    have h1 : (1 : ℕ) ≤ E := hE
    push_cast [h1]
    ring
  have hpos : ∀ e, e < E → 0 < sigma E e := by
    intro e he
    have heQ : (e : ℚ) < (E : ℚ) := by exact_mod_cast he
    unfold sigma
    apply div_pos _ hEQ
    have h1 : (0 : ℚ) < (E : ℚ) - (e : ℚ) := by linarith
    exact mul_pos (by norm_num) h1
  refine ⟨hpos, ?_, ?_, ?_⟩
  · intro e he
    have heN : e ≤ E - 1 := Nat.le_sub_one_of_lt he
    have heQ : (e : ℚ) ≤ ((E - 1 : ℕ) : ℚ) := by exact_mod_cast heN
    rw [hcast] at heQ
    unfold sigma
    rw [hcast, div_le_div_iff_of_pos_right hEQ]
    apply mul_le_mul_of_nonneg_left _ (by norm_num)
    linarith
  · unfold sigma
    rw [hcast]
    ring_nf
  · intro e he
    exact (hpos e he).ne'

/-- Witness for C10 at a run of 100 epochs. -/
theorem sigma_positive_witness :
    0 < sigma 100 3 ∧ sigma 100 (100 - 1) ≤ sigma 100 3
    ∧ sigma 100 (100 - 1) = 0.1 / (100 : ℚ) ∧ sigma 100 3 ≠ 0 :=
  ⟨(sigma_positive_on_executed_epochs 100 (by decide)).1 3 (by decide),
   (sigma_positive_on_executed_epochs 100 (by decide)).2.1 3 (by decide),
   (sigma_positive_on_executed_epochs 100 (by decide)).2.2.1,
   (sigma_positive_on_executed_epochs 100 (by decide)).2.2.2 3 (by decide)⟩

/-- C5: the interpolation path has exactly 64 entries, entry `k` is
`z_1 * (1 - k/63) + (k/63) * z_2`, entry 0 is exactly `z_1`, entry 63 is
exactly `z_2`, and the blend factors `k/63` are evenly spaced and
monotonically increasing. -/
theorem interpolation_path_properties (z_1 z_2 : ℚ) :
    (fixed_interpolate z_1 z_2).length = 64
    ∧ (∀ k : Fin 64, (fixed_interpolate z_1 z_2)[(k : ℕ)]? =
        some (z_1 * (1 - ((k : ℕ) : ℚ) / 63) + ((k : ℕ) : ℚ) / 63 * z_2))
    ∧ (fixed_interpolate z_1 z_2)[0]? = some z_1
    ∧ (fixed_interpolate z_1 z_2)[63]? = some z_2
    ∧ (∀ k : ℕ, lambda_interp (k + 1) - lambda_interp k = 1 / 63)
    ∧ (∀ j k : ℕ, j < k → lambda_interp j < lambda_interp k) := by
  refine ⟨by simp [fixed_interpolate], ?_, ?_, ?_, ?_, ?_⟩
  · intro k
    simp [fixed_interpolate, List.getElem?_range, k.isLt, z_interp, lambda_interp]
  · have h0 : z_interp z_1 z_2 0 = z_1 := by
      unfold z_interp lambda_interp
      norm_num
    simp [fixed_interpolate, List.getElem?_range, h0]
  · have h63 : z_interp z_1 z_2 63 = z_2 := by
      unfold z_interp lambda_interp
      norm_num
    simp [fixed_interpolate, List.getElem?_range, h63]
  · intro k
    unfold lambda_interp
    push_cast
    ring
  · intro j k hjk
    have hjkQ : (j : ℚ) < (k : ℚ) := by exact_mod_cast hjk
    unfold lambda_interp
    rw [div_lt_div_iff_of_pos_right (by norm_num : (0 : ℚ) < 63)]
    exact hjkQ

/-- Witness for C5 at the anchors `z_1 = 5`, `z_2 = 9`. -/
theorem interpolation_path_witness :
    (fixed_interpolate 5 9)[0]? = some 5
    ∧ (fixed_interpolate 5 9)[63]? = some 9
    ∧ lambda_interp 2 < lambda_interp 7 :=
  ⟨(interpolation_path_properties 5 9).2.2.1,
   (interpolation_path_properties 5 9).2.2.2.1,
   (interpolation_path_properties 5 9).2.2.2.2.2 2 7 (by decide)⟩

/-- C6 counterexample: a module whose class name contains both `Conv` and
`BatchNorm` falls into the `if` branch of `weight_init` (lines 22-23), so
although its class name contains `BatchNorm` its weights are drawn from
`normal(0, 0.02)` — not `normal(1, 0.02)` — and its bias is left at the
framework default instead of being set to 0. -/
theorem weight_init_claim_counterexample :
    (findSub ("BatchNorm".data) convBatchNormLayer.className.data).isSome = true
    ∧ (weight_init convBatchNormLayer).weight = ParamInit.normal 0 0.02
    ∧ (weight_init convBatchNormLayer).bias = ParamInit.frameworkDefault
    ∧ ¬ ((weight_init convBatchNormLayer).weight = ParamInit.normal 1 0.02
          ∧ (weight_init convBatchNormLayer).bias = ParamInit.const 0) := by
  have hc : (findSub ("Conv".data) (("ConvBatchNorm2d" : String)).data).isSome = true := by
    decide
  have hb : (findSub ("BatchNorm".data) (("ConvBatchNorm2d" : String)).data).isSome = true := by
    decide
  refine ⟨hb, ?_, ?_, ?_⟩
  · simp [weight_init, convBatchNormLayer, hc]
  · simp [weight_init, convBatchNormLayer, hc]
  · simp [weight_init, convBatchNormLayer, hc]

/-- C6 (amended): the `Conv` branch takes precedence.  A sub-layer whose class
name contains `Conv` gets weights from `normal(0, 0.02)` (bias untouched); a
sub-layer whose class name contains `BatchNorm` and does NOT contain `Conv`
gets weights from `normal(1, 0.02)` and bias set to 0; a sub-layer whose class
name contains neither is left entirely at its framework-default
initialization. -/
theorem weight_init_amended (m : Layer) :
    ((findSub ("Conv".data) m.className.data).isSome = true →
        weight_init m = { m with weight := ParamInit.normal 0 0.02 })
    ∧ ((findSub ("Conv".data) m.className.data).isSome = false →
        (findSub ("BatchNorm".data) m.className.data).isSome = true →
        weight_init m
          = { m with weight := ParamInit.normal 1 0.02, bias := ParamInit.const 0 })
    ∧ ((findSub ("Conv".data) m.className.data).isSome = false →
        (findSub ("BatchNorm".data) m.className.data).isSome = false →
        weight_init m = m) := by
  refine ⟨?_, ?_, ?_⟩
  · intro h
    simp [weight_init, h]
  · intro h1 h2
    simp [weight_init, h1, h2]
  · intro h1 h2
    simp [weight_init, h1, h2]

/-- Witness for the amended C6 on the three layer kinds that actually occur. -/
theorem weight_init_amended_witness :
    weight_init convLayer = { convLayer with weight := ParamInit.normal 0 0.02 }
    ∧ weight_init bnLayer
        = { bnLayer with weight := ParamInit.normal 1 0.02, bias := ParamInit.const 0 }
    ∧ weight_init linearLayer = linearLayer :=
  ⟨(weight_init_amended convLayer).1 (by decide),
   (weight_init_amended bnLayer).2.1 (by decide) (by decide),
   (weight_init_amended linearLayer).2.2 (by decide) (by decide)⟩

/-- C7 counterexample: with a 4-image dataset, `batch_size = 4` (one batch per
epoch, `drop_last=True`) and `num_epochs = 2`, the run executes 2 iterations —
fewer than 1000, and the counter hits a multiple of 1000 only at iteration 0 —
yet the number of visualization files per artifact type is not 0, because
`iters = 0` satisfies `iters % 1000 == 0` and triggers a write. -/
theorem scenario_writes_one_file_not_zero :
    totalIters 2 (batchesPerEpoch 4 4) = 2
    ∧ totalIters 2 (batchesPerEpoch 4 4) < 1000
    ∧ (∀ it ∈ List.range (totalIters 2 (batchesPerEpoch 4 4)), it % 1000 = 0 → it = 0)
    ∧ filesPerArtifact (totalIters 2 (batchesPerEpoch 4 4)) ≠ 0 := by
  decide

/-- C7 (amended): the 4-image / `batch_size = 4` / `num_epochs = 2` run
executes its 2 iterations and writes exactly 1 visualization file per artifact
type, at global iteration 0 (the counter starts at 0 and `0 % 1000 == 0`); a
triggering iteration writes one file for each of the two artifact types, named
by the iteration count zero-padded to 7 digits. -/
theorem scenario_file_count :
    visIters (totalIters 2 (batchesPerEpoch 4 4)) = [0]
    ∧ filesPerArtifact (totalIters 2 (batchesPerEpoch 4 4)) = 1
    ∧ (visPhase 0 st0).2 = [(Artifact.out, pngName 0), (Artifact.interpolate, pngName 0)]
    ∧ pngName 0 = "0000000.png" := by
  decide

/-- C8: the diagnostics record is produced exactly when the global iteration
counter is a multiple of 50, and it reports the epoch and in-epoch iteration
indices, the discriminator loss as the sum `errD_real + errD_fake` (line 119,
not averaged), the generator loss, and the three discriminator-output means
`D_x`, `D_G_x_1` (before the generator step) and `D_G_x_2` (after it). -/
theorem diagnostics_every_50_report_summed_loss
    {D G V : Type} [AddCommMonoid V] (T : Torch D G V)
    (num_epochs epoch num_batches i iters : ℕ)
    (real_images noise_1 noise noise_2 : V) (s : TrainState D G V) :
    (iteration T num_epochs epoch num_batches i iters
        real_images noise_1 noise noise_2 s).log
      = (if iters % 50 = 0 then
          some { epoch := epoch, num_epochs := num_epochs, i := i,
                 num_batches := num_batches,
                 lossD := (iteration T num_epochs epoch num_batches i iters
                       real_images noise_1 noise noise_2 s).errD_real
                   + (iteration T num_epochs epoch num_batches i iters
                       real_images noise_1 noise noise_2 s).errD_fake,
                 lossG := (iteration T num_epochs epoch num_batches i iters
                     real_images noise_1 noise noise_2 s).errG,
                 dx := (iteration T num_epochs epoch num_batches i iters
                     real_images noise_1 noise noise_2 s).D_x,
                 dgz1 := (iteration T num_epochs epoch num_batches i iters
                     real_images noise_1 noise noise_2 s).D_G_x_1,
                 dgz2 := (iteration T num_epochs epoch num_batches i iters
                     real_images noise_1 noise noise_2 s).D_G_x_2 }
        else none) := rfl

/-- C9: an iteration that triggers visualization leaves the generator in
evaluation mode; in the immediately following iteration the fake images for
the D-fake pass are generated while the generator is still in evaluation mode
(the generator's mode at generation time is the mode the iteration started
in, and neither the D-real nor the D-fake phase nor the discriminator step
touches it); the generator is switched back to training mode only by the
first action of the G-step. -/
theorem generator_eval_mode_after_visualization
    {D G V : Type} [AddCommMonoid V] (T : Torch D G V)
    (num_epochs epoch num_batches i iters : ℕ)
    (real_images noise_1 noise noise_2 : V) (s : TrainState D G V)
    (epoch2 i2 : ℕ) (real2 n1b zb n2b : V) :
    (iters % 1000 = 0 →
        (iteration T num_epochs epoch num_batches i iters
            real_images noise_1 noise noise_2 s).state.modeG = Mode.eval)
    ∧ (iters % 1000 = 0 →
        (iteration T num_epochs epoch2 num_batches i2 (iters + 1) real2 n1b zb n2b
            ((iteration T num_epochs epoch num_batches i iters
                real_images noise_1 noise noise_2 s).state)).fake_images.genMode
          = Mode.eval)
    ∧ ((iteration T num_epochs epoch num_batches i iters
          real_images noise_1 noise noise_2 s).fake_images.genMode = s.modeG)
    ∧ (∀ st : TrainState D G V, (dRealPhase T real_images noise_1 st).s.modeG = st.modeG)
    ∧ (∀ st : TrainState D G V, (dFakeBackward T noise noise_2 st).s.modeG = st.modeG)
    ∧ (∀ st : TrainState D G V, (netDOptimizerStep T st).modeG = st.modeG)
    ∧ (∀ (st : TrainState D G V) (fake : FakeImages V),
        (gPhase T fake noise_2 st).s.modeG = Mode.train) := by
  have h1 : iters % 1000 = 0 →
      (iteration T num_epochs epoch num_batches i iters
          real_images noise_1 noise noise_2 s).state.modeG = Mode.eval := by
    intro h
    simp [iteration, visPhase_fst_modeG, h]
  refine ⟨h1, ?_, rfl, fun st => rfl, fun st => rfl, fun st => rfl, fun st fake => rfl⟩
  intro h
  exact h1 h

/-- Witness for C9 at `iters = 0` (the first iteration always visualizes). -/
theorem generator_eval_mode_witness :
    (iteration torchQ 2 0 1 0 0 (5 : ℚ) 6 7 8 st0).state.modeG = Mode.eval
    ∧ (iteration torchQ 2 1 1 0 (0 + 1) (5 : ℚ) 6 7 8
        ((iteration torchQ 2 0 1 0 0 (5 : ℚ) 6 7 8 st0).state)).fake_images.genMode
      = Mode.eval :=
  ⟨(generator_eval_mode_after_visualization torchQ 2 0 1 0 0 5 6 7 8 st0 1 0 5 6 7 8).1
      (by decide),
   (generator_eval_mode_after_visualization torchQ 2 0 1 0 0 5 6 7 8 st0 1 0 5 6 7 8).2.1
      (by decide)⟩
